import Mathlib

/-!
Verification of the session/query orchestrator of a Telegram chat bot that
drives a streaming AI-agent backend.  The definitions below are a shallow
embedding of the TypeScript source (src/session.ts and
src/providers/codex.ts): JavaScript strings are modelled as Lean `String`
(or `List Char` where prefix arithmetic is needed), JS falsiness of a string
is `= ""`, JS `null`/`undefined` of an object field is `Option.none`, and the
mutable class state is passed explicitly.  Wall-clock readings are abstracted
as booleans/`Nat` timestamps supplied by the environment.
-/

namespace Bot

/-- JS `haystack.startsWith(pat)` on code-unit lists. -/
def isPrefixList (p l : List Char) : Bool :=
  match p, l with
  | [], _ => true
  | _ :: _, [] => false
  | a :: ps, b :: ls => a == b && isPrefixList ps ls

/-- JS `haystack.includes(pat)` (contiguous substring) on code-unit lists. -/
def containsSub (pat : List Char) : List Char → Bool
  | [] => isPrefixList pat []
  | c :: rest => isPrefixList pat (c :: rest) || containsSub pat rest

/-- JS `s.includes(pat)` for Lean strings. -/
def strContains (s pat : String) : Bool :=
  containsSub pat.toList s.toList

/-- JS `s.toLowerCase()` (ASCII-faithful). -/
def strToLower (s : String) : String :=
  String.mk (s.toList.map Char.toLower)

/-- JS `s.startsWith(pat)` for Lean strings. -/
def strStarts (s pat : String) : Bool :=
  isPrefixList pat.toList s.toList

/-- JS `a || b` for strings (empty string is falsy). -/
def jsOr (a b : String) : String :=
  if a = "" then b else a

/-- Modelled from the spec: the thinking-keyword lists live in `config.ts`,
which is absent from the source tree; the defaults are documented in the
session unit tests as "think,pensa,ragiona". -/
def THINKING_KEYWORDS : List String := ["think", "pensa", "ragiona"]

/-- Modelled from the spec: deep-thinking keyword defaults documented in the
session unit tests as "ultrathink,think hard,pensa bene". -/
def THINKING_DEEP_KEYWORDS : List String := ["ultrathink", "think hard", "pensa bene"]

/-- `getThinkingLevel` from src/session.ts: deep triggers first (50000),
then normal triggers (10000), else 0. -/
def getThinkingLevel (message : String) : Nat :=
  let msgLower := strToLower message
  if THINKING_DEEP_KEYWORDS.any (fun k => strContains msgLower k) then 50000
  else if THINKING_KEYWORDS.any (fun k => strContains msgLower k) then 10000
  else 0

/-- Token usage carried by a `result` stream event. -/
structure TokenUsage where
  input_tokens : Nat := 0
  output_tokens : Nat := 0
  cache_read_input_tokens : Nat := 0
deriving DecidableEq, Repr

/-- The model identifiers selectable on a session. -/
inductive ModelChoice
  | sonnet
  | opus
  | haiku
deriving DecidableEq, Repr

/-- The mutable fields of the `ClaudeSession` class that the verified
operations read or write.  `Option.none` models JS `null`. -/
structure SessionState where
  sessionId : Option String := none
  lastActivity : Option Nat := none
  queryStarted : Option Nat := none
  currentTool : Option String := none
  lastTool : Option String := none
  lastError : Option String := none
  lastErrorTime : Option Nat := none
  lastUsage : Option TokenUsage := none
  lastBotResponse : Option String := none
  currentModel : ModelChoice := .sonnet
  forceThinking : Option Nat := none
  planMode : Bool := false
  totalInputTokens : Nat := 0
  totalOutputTokens : Nat := 0
  totalCacheReadTokens : Nat := 0
  queryInstance : Bool := false
  userMessageUuids : List String := []
  workingDir : String := ""
  isQueryRunning : Bool := false
  stopRequested : Bool := false
  lastUserMessage : Option String := none
  handoffContext : Option String := none
deriving DecidableEq, Repr

/-- `kill` from src/session.ts: clears the session id, usage totals, mode
flags and the checkpoint state. -/
def kill (s : SessionState) : SessionState :=
  { s with
    sessionId := none
    lastActivity := none
    totalInputTokens := 0
    totalOutputTokens := 0
    totalCacheReadTokens := 0
    planMode := false
    forceThinking := none
    queryInstance := false
    userMessageUuids := [] }

/-- The `input` record of a `tool_use` block, restricted to the fields the
orchestrator reads (`toolInput.command`, `toolInput.file_path`); `""` models
an absent field (JS `String(x || "")`). -/
structure ToolInput where
  command : String := ""
  file_path : String := ""
deriving DecidableEq, Repr

/-- A content block of an `assistant` SDK message. -/
inductive ContentBlock
  | thinking (thinking : String)
  | tool_use (name : String) (input : ToolInput)
  | text (text : String)
deriving DecidableEq, Repr

/-- The body of a stream event, by `event.type`; `system` stands for the
event types the loop ignores. -/
inductive EventBody
  | assistant (content : List ContentBlock)
  | user (uuid : String)
  | result (usage : Option TokenUsage)
  | system
deriving DecidableEq, Repr

/-- One provider stream event; `session_id = ""` models an absent id. -/
structure SDKEvent where
  session_id : String := ""
  body : EventBody
deriving DecidableEq, Repr

/-- The external inputs read during one iteration of the event loop:
the session's cooperative stop flag, whether the wall-clock timeout check
fires (`elapsed > QUERY_TIMEOUT_MS && timeSinceLastCheck > QUERY_TIMEOUT_MS`),
whether the user answered `abort` to the timeout prompt within the wait
window, and whether `checkPendingAskUserRequests` reported buttons sent. -/
structure IterEnv where
  stopRequested : Bool := false
  timeoutFires : Bool := false
  timeoutAbort : Bool := false
  askUserButtonsSent : Bool := false
deriving DecidableEq, Repr

/-- External collaborators and configuration consulted by
`sendMessageStreaming`: the concurrency cap, the safety collaborators from
src/security.ts, `TEMP_PATHS`, `formatToolStatus`, whether `ctx`/`chatId`
were provided, the injected date prefix, and an abstract clock reading. -/
structure BotConfig where
  maxConcurrent : Nat
  checkCommandSafety : String → Bool × String
  isPathAllowed : String → Bool
  tempPaths : List String
  formatToolStatus : String → ToolInput → String
  hasChatCtx : Bool
  datePrefix : String
  nowT : Nat

/-- The per-query mutable locals of `sendMessageStreaming` together with the
session fields the loop updates. -/
structure LoopState where
  session : SessionState
  responseParts : List String := []
  currentSegmentId : Nat := 0
  currentSegmentText : String := ""
  queryCompleted : Bool := false
  askUserTriggered : Bool := false
  saveTriggered : Bool := false
deriving DecidableEq, Repr

/-- Result of processing one block or one event: either the updated state or
a thrown error together with the state at the throw. -/
inductive StepRes
  | ok (st : LoopState)
  | fail (st : LoopState) (err : String)
deriving DecidableEq, Repr

/-- The Bash safety gate of the `tool_use` branch: `some msg` is the thrown
error, `none` means the checks passed (src/session.ts lines 642-670). -/
def toolBlockError (cfg : BotConfig) (toolName : String) (toolInput : ToolInput) :
    Option String :=
  if toolName == "Bash" && !(cfg.checkCommandSafety toolInput.command).1 then
    some ("Unsafe command blocked: " ++ (cfg.checkCommandSafety toolInput.command).2)
  else
    let isTmpRead : Bool :=
      toolName == "Read" &&
        (cfg.tempPaths.any (fun p => strStarts toolInput.file_path p) ||
          strContains toolInput.file_path "/.claude/")
    if (toolName == "Read" || toolName == "Write" || toolName == "Edit") &&
        toolInput.file_path != "" && !isTmpRead &&
        !(cfg.isPathAllowed toolInput.file_path) then
      some ("File access blocked: " ++ toolInput.file_path)
    else none

/-- Whether a `tool_use` block triggers the ask-user early exit: the tool name
starts with `mcp__ask-user`, chat context was provided, and the button UI was
confirmed sent within the bounded retries (src/session.ts lines 695-713). -/
def askUserTrigger (cfg : BotConfig) (env : IterEnv) (toolName : String) : Bool :=
  strStarts toolName "mcp__ask-user" && cfg.hasChatCtx && env.askUserButtonsSent

/-- Processing of one content block of an `assistant` event
(src/session.ts lines 626-735): thinking blocks are forwarded verbatim,
tool blocks run the safety gate, close the open segment and may trigger the
ask-user exit, text blocks append to the response buffer and open segment.
The throttled partial-text status update (wall-clock gated) emits no state. -/
def processBlock (cfg : BotConfig) (env : IterEnv) (st : LoopState)
    (b : ContentBlock) : StepRes :=
  match b with
  | .thinking _ => .ok st
  | .tool_use toolName toolInput =>
    match toolBlockError cfg toolName toolInput with
    | some e => .fail st e
    | none =>
      let st :=
        if st.currentSegmentText ≠ "" then
          { st with currentSegmentId := st.currentSegmentId + 1, currentSegmentText := "" }
        else st
      let toolDisplay := cfg.formatToolStatus toolName toolInput
      let st := { st with session :=
        { st.session with currentTool := some toolDisplay, lastTool := some toolDisplay } }
      if askUserTrigger cfg env toolName then
        .ok { st with askUserTriggered := true }
      else .ok st
  | .text t =>
    .ok { st with
      responseParts := st.responseParts ++ [t]
      currentSegmentText := st.currentSegmentText ++ t }

/-- `for (const block of event.message.content)`. -/
def processBlocks (cfg : BotConfig) (env : IterEnv) :
    LoopState → List ContentBlock → StepRes
  | st, [] => .ok st
  | st, b :: rest =>
    match processBlock cfg env st b with
    | .ok st' => processBlocks cfg env st' rest
    | .fail st' e => .fail st' e

/-- `if (!this.sessionId && event.session_id)` (src/session.ts lines
611-616): capture the session id from the first event carrying one and
schedule a debounced save. -/
def captureSessionId (st : LoopState) (ev : SDKEvent) : LoopState :=
  if st.session.sessionId = none ∧ ev.session_id ≠ "" then
    { st with session := { st.session with sessionId := some ev.session_id }
              saveTriggered := true }
  else st

/-- `if (event.type === "user" && event.uuid)` (src/session.ts lines
618-622): push the user-message uuid as an undo checkpoint. -/
def captureUserUuid (st : LoopState) (ev : SDKEvent) : LoopState :=
  match ev.body with
  | .user uuid =>
    if uuid ≠ "" then
      { st with session := { st.session with
          userMessageUuids := st.session.userMessageUuids ++ [uuid] } }
    else st
  | _ => st

/-- The `result` branch (src/session.ts lines 744-762): mark the query
completed and accumulate usage totals when present. -/
def applyResult (st : LoopState) (usage : Option TokenUsage) : LoopState :=
  let st := { st with queryCompleted := true }
  match usage with
  | some u =>
    { st with session := { st.session with
        lastUsage := some u
        totalInputTokens := st.session.totalInputTokens + u.input_tokens
        totalOutputTokens := st.session.totalOutputTokens + u.output_tokens
        totalCacheReadTokens :=
          st.session.totalCacheReadTokens + u.cache_read_input_tokens } }
  | none => st

/-- Processing of one stream event after the stop/timeout checks
(src/session.ts lines 611-762). -/
def processEvent (cfg : BotConfig) (env : IterEnv) (st : LoopState)
    (ev : SDKEvent) : StepRes :=
  let st := captureSessionId st ev
  let st := captureUserUuid st ev
  match ev.body with
  | .assistant blocks => processBlocks cfg env st blocks
  | .result usage => .ok (applyResult st usage)
  | _ => .ok st

/-- Re-reading `this.stopRequested` at the top of a loop iteration: the
session's flag takes the externally visible value of that instant. -/
def setStopFlag (st : LoopState) (b : Bool) : LoopState :=
  { st with session := { st.session with stopRequested := b } }

/-- Result of the `for await` event loop: events exhausted, early `break`
(stop requested or ask-user), or a thrown error. -/
inductive LoopRes
  | ended (st : LoopState)
  | broke (st : LoopState)
  | failed (st : LoopState) (err : String)
deriving DecidableEq, Repr

/-- The state carried by a loop result. -/
def LoopRes.state : LoopRes → LoopState
  | .ended st => st
  | .broke st => st
  | .failed st _ => st

/-- The `for await (const event of queryInstance)` loop (src/session.ts
lines 556-763): each iteration re-reads the cooperative stop flag, runs the
timeout-escalation check (an `abort` answer throws "Query cancelled by
user"), then processes the event; the loop breaks after an event that set
`askUserTriggered`. -/
def runLoop (cfg : BotConfig) : LoopState → List (IterEnv × SDKEvent) → LoopRes
  | st, [] => .ended st
  | st, (env, ev) :: rest =>
    let st := setStopFlag st env.stopRequested
    if st.session.stopRequested then .broke st
    else if env.timeoutFires && env.timeoutAbort then
      .failed st "Query cancelled by user"
    else
      match processEvent cfg env st ev with
      | .fail st' e => .failed st' e
      | .ok st' => if st'.askUserTriggered then .broke st' else runLoop cfg st' rest

/-- `errorStr.includes("process exited with code")` on the lowercased error. -/
def isExitErrorStr (err : String) : Bool :=
  strContains (strToLower err) "process exited with code"

/-- `errorStr.includes("cancel") || errorStr.includes("abort")` on the
lowercased error. -/
def isCleanupErrorStr (err : String) : Bool :=
  strContains (strToLower err) "cancel" || strContains (strToLower err) "abort"

/-- The error-suppression decision of the `catch` block (src/session.ts lines
766-796).  `none` means the error is fatal (recorded and rethrown); `some f`
means it is suppressed, with `f` the forced partial response when the error
is exit-type, partial text exists and no `result` event arrived. -/
def handleQueryError (err : String) (queryCompleted askUserTriggered stopRequested : Bool)
    (responseParts : List String) : Option (Option String) :=
  let isExitError := isExitErrorStr err
  let isCleanupError := isCleanupErrorStr err
  let hasPartialResponse : Bool := 0 < responseParts.length
  let canSuppressExitError :=
    isExitError && (queryCompleted || askUserTriggered || stopRequested || hasPartialResponse)
  if (isCleanupError || canSuppressExitError) &&
      (queryCompleted || askUserTriggered || stopRequested || hasPartialResponse) then
    some (if isExitError && hasPartialResponse && !queryCompleted then
            some (String.join responseParts)
          else none)
  else none

/-- The `catch` block applied to a thrown error: either yields the suppressed
outcome or records `lastError`/`lastErrorTime` and rethrows. -/
def queryCatch (cfg : BotConfig) (ls : LoopState) (err : String) :
    LoopState × Except String (Option String) :=
  match handleQueryError err ls.queryCompleted ls.askUserTriggered
      ls.session.stopRequested ls.responseParts with
  | some forced => (ls, .ok forced)
  | none =>
    ({ ls with session := { ls.session with
        lastError := some (err.take 100)
        lastErrorTime := some cfg.nowT } },
      .error err)

/-- A provider stream: the events actually yielded, and an optional error
thrown while awaiting the next event after them (paired with the value of the
stop flag at the time the error surfaces). -/
structure StreamModel where
  events : List (IterEnv × SDKEvent)
  terminalError : Option (Bool × String) := none

/-- The `try`/`catch` body of `sendMessageStreaming`: run the event loop, and
on a thrown error apply the suppression logic.  The terminal provider error is
only observed when the loop consumed every event without breaking. -/
def queryBody (cfg : BotConfig) (ls0 : LoopState) (stream : StreamModel) :
    LoopState × Except String (Option String) :=
  match runLoop cfg ls0 stream.events with
  | .ended ls =>
    match stream.terminalError with
    | some p =>
      queryCatch cfg
        { ls with session := { ls.session with stopRequested := p.1 } } p.2
    | none => (ls, .ok none)
  | .broke ls => (ls, .ok none)
  | .failed ls e => queryCatch cfg ls e

/-- The pre-query phase of `sendMessageStreaming` (src/session.ts lines
421-502): one-shot thinking override consumption, keyword resolution, prompt
assembly with date prefix and handoff context on a new session. -/
structure PrepResult where
  thinkingTokens : Nat
  messageToSend : String
  state : SessionState
deriving Repr

/-- src/session.ts lines 421-502. -/
def prepareSend (cfg : BotConfig) (st0 : SessionState) (message : String) :
    PrepResult :=
  let isNewSession := st0.sessionId = none
  let (thinkingTokens, st) :=
    match st0.forceThinking with
    | some t => (t, { st0 with forceThinking := none })
    | none => (getThinkingLevel message, st0)
  let st := { st with lastUserMessage := some message }
  let (messageToSend, st) :=
    if isNewSession then
      let handoff := st.handoffContext.getD ""
      let st := { st with handoffContext := none }
      if handoff ≠ "" then
        (cfg.datePrefix ++ "[Previous session summary]\n" ++ handoff ++
          "\n\n[New request]\n" ++ message, st)
      else (cfg.datePrefix ++ message, st)
    else (message, st)
  let st :=
    if st.sessionId ≠ none ∧ ¬ isNewSession then st
    else { st with sessionId := none }
  { thinkingTokens := thinkingTokens, messageToSend := messageToSend, state := st }

/-- `ClaudeSession._activeQueries = Math.max(0, ClaudeSession._activeQueries - 1)`
from the `finally` block. -/
def gateRelease (n : Nat) : Nat :=
  Nat.max 0 (n - 1)

/-- Outcome of a `sendMessageStreaming` call: the resolved string or the
thrown error. -/
inductive SendOutcome
  | ok (text : String)
  | error (msg : String)
deriving DecidableEq, Repr

/-- The observable result of one `sendMessageStreaming` call: the shared
active-query counter after the call, the highest value it reached during the
call, whether `provider.createQuery` was invoked, the thinking budget used,
the session state after the call, and the outcome. -/
structure SendResult where
  active : Nat
  peakActive : Nat
  providerInvoked : Bool
  thinkingTokens : Nat
  state : SessionState
  outcome : SendOutcome
deriving Repr

/-- The `finally` cleanup and final-response assembly of
`sendMessageStreaming` (src/session.ts lines 797-830): release the
concurrency slot, clear the query-lifecycle fields, and on the no-throw path
clear the error diagnostics, stamp activity, and build the returned string
(ask-user sentinel, forced partial response, concatenated buffer, or the
default placeholder). -/
def finishQuery (cfg : BotConfig) (active thinking : Nat) (ls : LoopState)
    (body : Except String (Option String)) : SendResult :=
  let sFin := { ls.session with
    isQueryRunning := false
    queryStarted := none
    currentTool := none }
  match body with
  | .error e =>
    { active := gateRelease (active + 1), peakActive := active + 1
      providerInvoked := true, thinkingTokens := thinking
      state := sFin, outcome := .error e }
  | .ok forced =>
    let sOk := { sFin with
      lastActivity := some cfg.nowT
      lastError := none
      lastErrorTime := none }
    if ls.askUserTriggered then
      { active := gateRelease (active + 1), peakActive := active + 1
        providerInvoked := true, thinkingTokens := thinking
        state := sOk, outcome := .ok "[Waiting for user selection]" }
    else
      let finalResponse :=
        jsOr (forced.getD "")
          (jsOr (String.join ls.responseParts) "No response from Claude.")
      { active := gateRelease (active + 1), peakActive := active + 1
        providerInvoked := true, thinkingTokens := thinking
        state := { sOk with lastBotResponse := some finalResponse }
        outcome := .ok finalResponse }

/-- The session-state mutations performed when the query starts
(src/session.ts lines 524-532 and 553): mark the query running, clear the
stop flag, stamp the start time, clear the current tool, and attach the
query instance. -/
def startQuery (cfg : BotConfig) (st : SessionState) : SessionState :=
  { st with
    isQueryRunning := true
    stopRequested := false
    queryStarted := some cfg.nowT
    currentTool := none
    queryInstance := true }

/-- `sendMessageStreaming` (src/session.ts lines 408-830) over the abstract
stream: pre-query preparation, the pending-stop check, the concurrency gate,
the event loop with error suppression, the `finally` cleanup, and the final
response assembly. -/
def sendMessageStreaming (cfg : BotConfig) (active : Nat) (st0 : SessionState)
    (message : String) (stream : StreamModel) : SendResult :=
  let prep := prepareSend cfg st0 message
  let st := prep.state
  if st.stopRequested then
    { active := active, peakActive := active, providerInvoked := false
      thinkingTokens := prep.thinkingTokens
      state := { st with stopRequested := false }
      outcome := .error "Query cancelled" }
  else if cfg.maxConcurrent ≤ active then
    { active := active, peakActive := active, providerInvoked := false
      thinkingTokens := prep.thinkingTokens
      state := st
      outcome := .error ("Server busy: " ++ toString active ++
        " queries running. Please wait.") }
  else
    let r := queryBody cfg { session := startQuery cfg st } stream
    finishQuery cfg active prep.thinkingTokens r.1 r.2

/-- The state carried by a step result. -/
def StepRes.state : StepRes → LoopState
  | .ok st => st
  | .fail st _ => st

/-- An iteration environment that neither requests a stop nor answers `abort`
to a fired timeout prompt. -/
def benignEnv (env : IterEnv) : Bool :=
  !env.stopRequested && !(env.timeoutFires && env.timeoutAbort)

/-- A block that passes the safety gate and does not trigger the ask-user
early exit. -/
def blockClean (cfg : BotConfig) (env : IterEnv) : ContentBlock → Bool
  | .tool_use n i => (toolBlockError cfg n i == none) && !(askUserTrigger cfg env n)
  | _ => true

/-- An event whose iteration neither stops, aborts, throws, nor triggers the
ask-user exit. -/
def eventClean (cfg : BotConfig) (env : IterEnv) (ev : SDKEvent) : Bool :=
  benignEnv env &&
    (match ev.body with
     | .assistant blocks => blocks.all (blockClean cfg env)
     | _ => true)

/-- A stream in which every iteration is clean. -/
def streamClean (cfg : BotConfig) (evs : List (IterEnv × SDKEvent)) : Bool :=
  evs.all (fun p => eventClean cfg p.1 p.2)

/-- The text deltas carried by a block list, in order. -/
def blockTexts : List ContentBlock → List String
  | [] => []
  | .text t :: rest => t :: blockTexts rest
  | .thinking _ :: rest => blockTexts rest
  | .tool_use _ _ :: rest => blockTexts rest

/-- The text delta carried by a single block. -/
def blockTexts1 : ContentBlock → List String
  | .text t => [t]
  | .thinking _ => []
  | .tool_use _ _ => []

/-- The `AssistantText` deltas carried by one event. -/
def eventTextDeltas (ev : SDKEvent) : List String :=
  match ev.body with
  | .assistant blocks => blockTexts blocks
  | _ => []

/-- All `AssistantText` deltas of a stream, in arrival order. -/
def streamTextDeltas : List (IterEnv × SDKEvent) → List String
  | [] => []
  | p :: rest => eventTextDeltas p.2 ++ streamTextDeltas rest

/-- Whether an event is a `result` event. -/
def eventIsResult (ev : SDKEvent) : Bool :=
  match ev.body with
  | .result _ => true
  | _ => false

/-- Whether a `result` event appears in the stream. -/
def streamHasResult (evs : List (IterEnv × SDKEvent)) : Bool :=
  evs.any (fun p => eventIsResult p.2)

/-- `undo` from src/session.ts (lines 869-899): pop the most recent
user-message uuid (JS `Array.pop` takes the last element), call
`rewindFiles` on it, and on failure push the uuid back before reporting.
`rewind` stands for `this._queryInstance.rewindFiles`; returns the updated
state, the success flag and the user-facing message. -/
def undo (rewind : String → Except String Unit) (s : SessionState) :
    SessionState × Bool × String :=
  if s.queryInstance = false then
    (s, false, "No active session to undo")
  else if s.userMessageUuids.isEmpty then
    (s, false, "No checkpoints available")
  else
    let targetUuid := (s.userMessageUuids.getLast?).getD ""
    let s1 := { s with userMessageUuids := s.userMessageUuids.dropLast }
    if targetUuid = "" then
      (s1, false, "No checkpoints available")
    else
      match rewind targetUuid with
      | .ok _ =>
        (s1, true, "Reverted file changes to checkpoint " ++ targetUuid)
      | .error e =>
        ({ s1 with userMessageUuids := s1.userMessageUuids ++ [targetUuid] },
          false, "Failed to undo: " ++ e)

/-- The schema version tag written into the persisted session file. -/
def SESSION_VERSION : Int := 1

/-- The persisted session snapshot (src/types.ts `SessionData`): `""` models
an absent/empty string field and `none` an absent `version`. -/
structure SessionData where
  session_id : String := ""
  version : Option Int := none
  saved_at : String := ""
  working_dir : String := ""
deriving DecidableEq, Repr

/-- `resumeLast` from src/session.ts (lines 985-1030): validate presence of a
session id, the version tag, and the working-directory match (skipped when the
persisted `working_dir` is absent/empty) before adopting the persisted id.
`file = none` models a missing/empty/unparsable session file (every such case
returns failure without touching the session). -/
def resumeLast (now : Nat) (file : Option SessionData) (s : SessionState) :
    SessionState × Bool × String :=
  match file with
  | none => (s, false, "No saved session found")
  | some data =>
    if data.session_id = "" then
      (s, false, "Saved session file is empty")
    else if data.version ≠ some SESSION_VERSION then
      (s, false, "Session version mismatch")
    else if data.working_dir ≠ "" ∧ data.working_dir ≠ s.workingDir then
      (s, false, "Session was for different directory: " ++ data.working_dir)
    else
      ({ s with sessionId := some data.session_id, lastActivity := some now },
        true, "Resumed session " ++ data.session_id)

end Bot

namespace Codex

/-- Cumulative text snapshots are JS strings, modelled as code-unit lists. -/
abbrev JSStr := List Char

/-- Which cumulative-text map a flush addresses. -/
inductive DeltaKind
  | text
  | thinking
deriving DecidableEq, Repr

/-- The per-query state of the Codex adapter's delta synthesis
(src/providers/codex.ts lines 189-195): the two `Map`s from item id to the
last recorded cumulative text (a missing key reads as `""`), and the
accumulated `finalResponse`. -/
structure CodexState where
  textByItemId : String → JSStr
  thinkingByItemId : String → JSStr
  finalResponse : JSStr

/-- `flushTextDelta` from src/providers/codex.ts (lines 200-228): given the
item's cumulative text snapshot, emit only the new suffix when the snapshot
extends the recorded text, or the whole snapshot otherwise; an empty snapshot
or an empty delta emits nothing and leaves the maps untouched.  The second
component is the delta carried by the emitted assistant message, `none` when
no message is emitted. -/
def flushTextDelta (st : CodexState) (itemId : String) (text : JSStr)
    (kind : DeltaKind) : CodexState × Option JSStr :=
  if text = [] then (st, none)
  else
    let prev := match kind with
      | .text => st.textByItemId itemId
      | .thinking => st.thinkingByItemId itemId
    let delta := if Bot.isPrefixList prev text then text.drop prev.length else text
    if delta = [] then (st, none)
    else
      match kind with
      | .text =>
        ({ st with
            textByItemId := fun i => if i = itemId then text else st.textByItemId i
            finalResponse := st.finalResponse ++ delta },
          some delta)
      | .thinking =>
        ({ st with
            thinkingByItemId := fun i => if i = itemId then text else st.thinkingByItemId i },
          some delta)

/-- Folding `flushTextDelta` over a sequence of cumulative snapshots for one
item id, collecting the emitted deltas in order. -/
def runFlush (st : CodexState) (itemId : String) (kind : DeltaKind) :
    List JSStr → CodexState × List JSStr
  | [] => (st, [])
  | text :: rest =>
    let r1 := flushTextDelta st itemId text kind
    let r2 := runFlush r1.1 itemId kind rest
    (r2.1, (match r1.2 with | some d => [d] | none => []) ++ r2.2)

/-- Each snapshot extends the previous one as a string prefix. -/
def prefixChain (p : JSStr) : List JSStr → Bool
  | [] => true
  | s :: rest => Bot.isPrefixList p s && prefixChain s rest

end Codex

namespace Bot

/-- A concrete configuration used to evaluate the model on closed inputs:
capacity 2, permissive safety collaborators. -/
def cfg0 : BotConfig :=
  { maxConcurrent := 2
    checkCommandSafety := fun _ => (true, "")
    isPathAllowed := fun _ => true
    tempPaths := []
    formatToolStatus := fun n _ => n
    hasChatCtx := true
    datePrefix := ""
    nowT := 7 }

/-- A stream consisting of a single `result` event and a clean end. -/
def streamResultOnly : StreamModel :=
  { events := [({}, { body := .result none })] }

/-- A stream with one text delta and a terminal non-exit abort-flavoured
error. -/
def streamAbortErr : StreamModel :=
  { events := [({}, { body := .assistant [.text "Hi"] })]
    terminalError := some (false, "The operation was aborted") }

/-- A stream with one text delta, no `result` event, and a terminal exit-type
error. -/
def streamExitErr : StreamModel :=
  { events := [({}, { body := .assistant [.text "Hi"] })]
    terminalError := some (false, "process exited with code 1") }

end Bot

/-- A fresh Codex adapter state: both maps empty, no accumulated response. -/
def codexSt0 : Codex.CodexState :=
  { textByItemId := fun _ => []
    thinkingByItemId := fun _ => []
    finalResponse := [] }

namespace Bot

@[simp] lemma setStopFlag_stopRequested (st : LoopState) (b : Bool) :
    (setStopFlag st b).session.stopRequested = b := rfl

@[simp] lemma setStopFlag_forceThinking (st : LoopState) (b : Bool) :
    (setStopFlag st b).session.forceThinking = st.session.forceThinking := rfl

@[simp] lemma setStopFlag_responseParts (st : LoopState) (b : Bool) :
    (setStopFlag st b).responseParts = st.responseParts := rfl

@[simp] lemma setStopFlag_askUserTriggered (st : LoopState) (b : Bool) :
    (setStopFlag st b).askUserTriggered = st.askUserTriggered := rfl

@[simp] lemma setStopFlag_queryCompleted (st : LoopState) (b : Bool) :
    (setStopFlag st b).queryCompleted = st.queryCompleted := rfl

@[simp] lemma captureSessionId_forceThinking (st : LoopState) (ev : SDKEvent) :
    (captureSessionId st ev).session.forceThinking = st.session.forceThinking := by
  unfold captureSessionId
  split <;> rfl

@[simp] lemma captureSessionId_responseParts (st : LoopState) (ev : SDKEvent) :
    (captureSessionId st ev).responseParts = st.responseParts := by
  unfold captureSessionId
  split <;> rfl

@[simp] lemma captureSessionId_askUserTriggered (st : LoopState) (ev : SDKEvent) :
    (captureSessionId st ev).askUserTriggered = st.askUserTriggered := by
  unfold captureSessionId
  split <;> rfl

@[simp] lemma captureSessionId_queryCompleted (st : LoopState) (ev : SDKEvent) :
    (captureSessionId st ev).queryCompleted = st.queryCompleted := by
  unfold captureSessionId
  split <;> rfl

@[simp] lemma captureSessionId_stopRequested (st : LoopState) (ev : SDKEvent) :
    (captureSessionId st ev).session.stopRequested = st.session.stopRequested := by
  unfold captureSessionId
  split <;> rfl

@[simp] lemma captureUserUuid_forceThinking (st : LoopState) (ev : SDKEvent) :
    (captureUserUuid st ev).session.forceThinking = st.session.forceThinking := by
  unfold captureUserUuid
  split <;> (try split) <;> rfl

@[simp] lemma captureUserUuid_responseParts (st : LoopState) (ev : SDKEvent) :
    (captureUserUuid st ev).responseParts = st.responseParts := by
  unfold captureUserUuid
  split <;> (try split) <;> rfl

@[simp] lemma captureUserUuid_askUserTriggered (st : LoopState) (ev : SDKEvent) :
    (captureUserUuid st ev).askUserTriggered = st.askUserTriggered := by
  unfold captureUserUuid
  split <;> (try split) <;> rfl

@[simp] lemma captureUserUuid_queryCompleted (st : LoopState) (ev : SDKEvent) :
    (captureUserUuid st ev).queryCompleted = st.queryCompleted := by
  unfold captureUserUuid
  split <;> (try split) <;> rfl

@[simp] lemma captureUserUuid_stopRequested (st : LoopState) (ev : SDKEvent) :
    (captureUserUuid st ev).session.stopRequested = st.session.stopRequested := by
  unfold captureUserUuid
  split <;> (try split) <;> rfl

@[simp] lemma applyResult_forceThinking (st : LoopState) (usage : Option TokenUsage) :
    (applyResult st usage).session.forceThinking = st.session.forceThinking := by
  unfold applyResult
  cases usage <;> rfl

@[simp] lemma applyResult_responseParts (st : LoopState) (usage : Option TokenUsage) :
    (applyResult st usage).responseParts = st.responseParts := by
  unfold applyResult
  cases usage <;> rfl

@[simp] lemma applyResult_askUserTriggered (st : LoopState) (usage : Option TokenUsage) :
    (applyResult st usage).askUserTriggered = st.askUserTriggered := by
  unfold applyResult
  cases usage <;> rfl

@[simp] lemma applyResult_queryCompleted (st : LoopState) (usage : Option TokenUsage) :
    (applyResult st usage).queryCompleted = true := by
  unfold applyResult
  cases usage <;> rfl

@[simp] lemma applyResult_stopRequested (st : LoopState) (usage : Option TokenUsage) :
    (applyResult st usage).session.stopRequested = st.session.stopRequested := by
  unfold applyResult
  cases usage <;> rfl

lemma processBlock_forceThinking (cfg : BotConfig) (env : IterEnv)
    (st : LoopState) (b : ContentBlock) :
    (processBlock cfg env st b).state.session.forceThinking =
      st.session.forceThinking := by
  cases b with
  | thinking t => rfl
  | text t => rfl
  | tool_use n i =>
    simp only [processBlock]
    cases h : toolBlockError cfg n i with
    | some e => rfl
    | none =>
      simp only []
      split <;> split <;> rfl

lemma processBlocks_forceThinking (cfg : BotConfig) (env : IterEnv)
    (st : LoopState) (bs : List ContentBlock) :
    (processBlocks cfg env st bs).state.session.forceThinking =
      st.session.forceThinking := by
  induction bs generalizing st with
  | nil => rfl
  | cons b rest ih =>
    simp only [processBlocks]
    have hb := processBlock_forceThinking cfg env st b
    cases h : processBlock cfg env st b with
    | ok st' =>
      rw [h] at hb
      simp only [StepRes.state] at hb
      rw [ih st']
      exact hb
    | fail st' e =>
      rw [h] at hb
      exact hb

lemma processEvent_forceThinking (cfg : BotConfig) (env : IterEnv)
    (st : LoopState) (ev : SDKEvent) :
    (processEvent cfg env st ev).state.session.forceThinking =
      st.session.forceThinking := by
  obtain ⟨sid, body⟩ := ev
  cases body with
  | assistant blocks =>
    simp only [processEvent]
    rw [processBlocks_forceThinking]
    simp
  | user uuid => simp [processEvent, StepRes.state]
  | result usage => simp [processEvent, StepRes.state]
  | system => simp [processEvent, StepRes.state]

lemma runLoop_forceThinking (cfg : BotConfig) (st : LoopState)
    (evs : List (IterEnv × SDKEvent)) :
    (runLoop cfg st evs).state.session.forceThinking =
      st.session.forceThinking := by
  induction evs generalizing st with
  | nil => rfl
  | cons p rest ih =>
    obtain ⟨env, ev⟩ := p
    simp only [runLoop]
    split
    · simp [LoopRes.state]
    · split
      · simp [LoopRes.state]
      · have hp := processEvent_forceThinking cfg env (setStopFlag st env.stopRequested) ev
        cases h : processEvent cfg env (setStopFlag st env.stopRequested) ev with
        | fail st2 e =>
          rw [h] at hp
          simp only [StepRes.state] at hp
          simpa [LoopRes.state] using hp
        | ok st2 =>
          rw [h] at hp
          simp only [StepRes.state] at hp
          dsimp only
          split
          · simpa [LoopRes.state] using hp
          · rw [ih st2]
            simpa using hp

lemma blockTexts_cons (b : ContentBlock) (rest : List ContentBlock) :
    blockTexts (b :: rest) = blockTexts1 b ++ blockTexts rest := by
  cases b <;> simp [blockTexts, blockTexts1]

lemma processBlock_of_clean (cfg : BotConfig) (env : IterEnv) (st : LoopState)
    (b : ContentBlock) (hb : blockClean cfg env b = true) :
    ∃ st', processBlock cfg env st b = .ok st' ∧
      st'.responseParts = st.responseParts ++ blockTexts1 b ∧
      st'.askUserTriggered = st.askUserTriggered ∧
      st'.queryCompleted = st.queryCompleted ∧
      st'.session.stopRequested = st.session.stopRequested := by
  cases b with
  | thinking t => exact ⟨st, rfl, by simp [blockTexts1], rfl, rfl, rfl⟩
  | text t => exact ⟨_, rfl, by simp [processBlock, blockTexts1], rfl, rfl, rfl⟩
  | tool_use n i =>
    simp only [blockClean, Bool.and_eq_true, beq_iff_eq, Bool.not_eq_true'] at hb
    obtain ⟨h1, h2⟩ := hb
    simp only [processBlock, h1, h2]
    refine ⟨_, rfl, ?_, ?_, ?_, ?_⟩ <;>
      split <;> simp [blockTexts1]

lemma processBlocks_of_clean (cfg : BotConfig) (env : IterEnv)
    (bs : List ContentBlock) : ∀ st : LoopState,
    bs.all (blockClean cfg env) = true →
    ∃ st', processBlocks cfg env st bs = .ok st' ∧
      st'.responseParts = st.responseParts ++ blockTexts bs ∧
      st'.askUserTriggered = st.askUserTriggered ∧
      st'.queryCompleted = st.queryCompleted ∧
      st'.session.stopRequested = st.session.stopRequested := by
  induction bs with
  | nil =>
    intro st _
    exact ⟨st, rfl, by simp [blockTexts], rfl, rfl, rfl⟩
  -- cons case below uses blockTexts_cons to split off the head block
  | cons b rest ih =>
    intro st hall
    simp only [List.all_cons, Bool.and_eq_true] at hall
    obtain ⟨hb, hrest⟩ := hall
    obtain ⟨st1, heq1, hp1, ha1, hq1, hs1⟩ := processBlock_of_clean cfg env st b hb
    obtain ⟨st2, heq2, hp2, ha2, hq2, hs2⟩ := ih st1 hrest
    refine ⟨st2, ?_, ?_, ?_, ?_, ?_⟩
    · simp only [processBlocks, heq1]
      exact heq2
    · rw [hp2, hp1, blockTexts_cons, List.append_assoc]
    · rw [ha2, ha1]
    · rw [hq2, hq1]
    · rw [hs2, hs1]

lemma processEvent_of_clean (cfg : BotConfig) (env : IterEnv) (st : LoopState)
    (ev : SDKEvent) (hc : eventClean cfg env ev = true) :
    ∃ st', processEvent cfg env st ev = .ok st' ∧
      st'.responseParts = st.responseParts ++ eventTextDeltas ev ∧
      st'.askUserTriggered = st.askUserTriggered ∧
      st'.queryCompleted = (st.queryCompleted || eventIsResult ev) ∧
      st'.session.stopRequested = st.session.stopRequested := by
  obtain ⟨sid, body⟩ := ev
  cases body with
  | assistant blocks =>
    simp only [eventClean, Bool.and_eq_true] at hc
    obtain ⟨st', heq, hp, ha, hq, hs⟩ := processBlocks_of_clean cfg env blocks
      (captureUserUuid (captureSessionId st ⟨sid, .assistant blocks⟩)
        ⟨sid, .assistant blocks⟩) hc.2
    refine ⟨st', heq, ?_, ?_, ?_, ?_⟩
    · rw [hp]
      simp [eventTextDeltas]
    · rw [ha]
      simp
    · rw [hq]
      simp [eventIsResult]
    · rw [hs]
      simp
  | user uuid =>
    refine ⟨_, rfl, ?_, ?_, ?_, ?_⟩ <;> simp [eventTextDeltas, eventIsResult]
  | result usage =>
    refine ⟨_, rfl, ?_, ?_, ?_, ?_⟩ <;> simp [eventTextDeltas, eventIsResult]
  | system =>
    refine ⟨_, rfl, ?_, ?_, ?_, ?_⟩ <;> simp [eventTextDeltas, eventIsResult]

lemma runLoop_of_clean (cfg : BotConfig) (evs : List (IterEnv × SDKEvent)) :
    ∀ st : LoopState, streamClean cfg evs = true →
    st.askUserTriggered = false →
    st.session.stopRequested = false →
    ∃ st', runLoop cfg st evs = .ended st' ∧
      st'.responseParts = st.responseParts ++ streamTextDeltas evs ∧
      st'.askUserTriggered = false ∧
      st'.queryCompleted = (st.queryCompleted || streamHasResult evs) ∧
      st'.session.stopRequested = false := by
  induction evs with
  | nil =>
    intro st _ ha hs
    exact ⟨st, rfl, by simp [streamTextDeltas], ha, by simp [streamHasResult], hs⟩
  | cons p rest ih =>
    intro st hclean ha hs
    obtain ⟨env, ev⟩ := p
    simp only [streamClean, List.all_cons, Bool.and_eq_true] at hclean
    obtain ⟨hev, hrest⟩ := hclean
    have hben : benignEnv env = true := by
      simp only [eventClean, Bool.and_eq_true] at hev
      exact hev.1
    simp only [benignEnv, Bool.and_eq_true, Bool.not_eq_true'] at hben
    obtain ⟨henvstop, htimeout⟩ := hben
    obtain ⟨st1, heq1, hp1, ha1, hq1, hs1⟩ :=
      processEvent_of_clean cfg env (setStopFlag st env.stopRequested) ev hev
    obtain ⟨st2, heq2, hp2, ha2, hq2, hs2⟩ := ih st1 hrest
      (by rw [ha1]; simpa using ha)
      (by rw [hs1]; simp [henvstop])
    refine ⟨st2, ?_, ?_, ha2, ?_, hs2⟩
    · simp only [runLoop, setStopFlag_stopRequested, henvstop, htimeout]
      rw [henvstop] at heq1
      simp only [heq1]
      rw [if_neg (show ¬(false = true) by simp)]
      have hask1 : ¬ (st1.askUserTriggered = true) := by
        rw [ha1]
        simpa using ha
      rw [if_neg hask1]
      exact heq2
    · rw [hp2, hp1]
      simp [streamTextDeltas]
    · rw [hq2, hq1]
      simp [streamHasResult, Bool.or_assoc]

lemma queryCatch_forceThinking (cfg : BotConfig) (ls : LoopState) (err : String) :
    (queryCatch cfg ls err).1.session.forceThinking = ls.session.forceThinking := by
  simp only [queryCatch]
  split <;> rfl

lemma queryBody_forceThinking (cfg : BotConfig) (ls0 : LoopState)
    (stream : StreamModel) :
    (queryBody cfg ls0 stream).1.session.forceThinking =
      ls0.session.forceThinking := by
  simp only [queryBody]
  have hrl := runLoop_forceThinking cfg ls0 stream.events
  cases h : runLoop cfg ls0 stream.events with
  | ended ls =>
    rw [h] at hrl
    simp only [LoopRes.state] at hrl
    cases stream.terminalError with
    | none => simpa using hrl
    | some p => simpa [queryCatch_forceThinking] using hrl
  | broke ls =>
    rw [h] at hrl
    simpa [LoopRes.state] using hrl
  | failed ls e =>
    rw [h] at hrl
    simpa [LoopRes.state, queryCatch_forceThinking] using hrl

end Bot

namespace Bot

lemma gateRelease_succ (n : Nat) : gateRelease (n + 1) = n := by
  simp [gateRelease]

lemma prepareSend_stopRequested (cfg : BotConfig) (st0 : SessionState)
    (message : String) :
    (prepareSend cfg st0 message).state.stopRequested = st0.stopRequested := by
  unfold prepareSend
  cases st0.forceThinking <;> dsimp only <;> split_ifs <;> rfl

lemma prepareSend_forceThinking (cfg : BotConfig) (st0 : SessionState)
    (message : String) :
    (prepareSend cfg st0 message).state.forceThinking = none := by
  unfold prepareSend
  cases h : st0.forceThinking <;> dsimp only <;> split_ifs <;>
    simp_all

lemma prepareSend_thinkingTokens (cfg : BotConfig) (st0 : SessionState)
    (message : String) :
    (prepareSend cfg st0 message).thinkingTokens =
      (match st0.forceThinking with
       | some t => t
       | none => getThinkingLevel message) := by
  unfold prepareSend
  cases st0.forceThinking <;> dsimp only <;> split_ifs <;> rfl

lemma finishQuery_active (cfg : BotConfig) (active thinking : Nat)
    (ls : LoopState) (body : Except String (Option String)) :
    (finishQuery cfg active thinking ls body).active = gateRelease (active + 1) := by
  unfold finishQuery
  cases body <;> dsimp only <;> split_ifs <;> rfl

lemma finishQuery_peakActive (cfg : BotConfig) (active thinking : Nat)
    (ls : LoopState) (body : Except String (Option String)) :
    (finishQuery cfg active thinking ls body).peakActive = active + 1 := by
  unfold finishQuery
  cases body <;> dsimp only <;> split_ifs <;> rfl

lemma finishQuery_providerInvoked (cfg : BotConfig) (active thinking : Nat)
    (ls : LoopState) (body : Except String (Option String)) :
    (finishQuery cfg active thinking ls body).providerInvoked = true := by
  unfold finishQuery
  cases body <;> dsimp only <;> split_ifs <;> rfl

lemma finishQuery_thinkingTokens (cfg : BotConfig) (active thinking : Nat)
    (ls : LoopState) (body : Except String (Option String)) :
    (finishQuery cfg active thinking ls body).thinkingTokens = thinking := by
  unfold finishQuery
  cases body <;> dsimp only <;> split_ifs <;> rfl

lemma finishQuery_forceThinking (cfg : BotConfig) (active thinking : Nat)
    (ls : LoopState) (body : Except String (Option String)) :
    (finishQuery cfg active thinking ls body).state.forceThinking =
      ls.session.forceThinking := by
  unfold finishQuery
  cases body <;> dsimp only <;> split_ifs <;> rfl

end Bot

namespace Bot

lemma sendMessageStreaming_thinkingTokens (cfg : BotConfig) (active : Nat)
    (st0 : SessionState) (message : String) (stream : StreamModel) :
    (sendMessageStreaming cfg active st0 message stream).thinkingTokens =
      (prepareSend cfg st0 message).thinkingTokens := by
  simp only [sendMessageStreaming]
  split_ifs <;> first | rfl | rw [finishQuery_thinkingTokens]

lemma sendMessageStreaming_forceThinking (cfg : BotConfig) (active : Nat)
    (st0 : SessionState) (message : String) (stream : StreamModel) :
    (sendMessageStreaming cfg active st0 message stream).state.forceThinking =
      none := by
  simp only [sendMessageStreaming]
  split_ifs
  · exact prepareSend_forceThinking cfg st0 message
  · exact prepareSend_forceThinking cfg st0 message
  · rw [finishQuery_forceThinking, queryBody_forceThinking]
    exact prepareSend_forceThinking cfg st0 message

/-- C6: an input containing "think hard" (case-insensitively) resolves to the
deep budget 50000; a pending one-shot `forceThinking` override is used as the
thinking budget and cleared by that send, so the next send falls back to
keyword resolution. -/
theorem thinking_budget_resolution :
    (∀ message : String, strContains (strToLower message) "think hard" = true →
        getThinkingLevel message = 50000) ∧
    (∀ (cfg : BotConfig) (active : Nat) (st0 : SessionState) (message : String)
        (stream : StreamModel) (t : Nat), st0.forceThinking = some t →
        (sendMessageStreaming cfg active st0 message stream).thinkingTokens = t ∧
        (sendMessageStreaming cfg active st0 message stream).state.forceThinking = none) ∧
    (∀ (cfg : BotConfig) (active : Nat) (st0 : SessionState) (message : String)
        (stream : StreamModel), st0.forceThinking = none →
        (sendMessageStreaming cfg active st0 message stream).thinkingTokens =
          getThinkingLevel message) := by
  refine ⟨?_, ?_, ?_⟩
  · intro message h
    unfold getThinkingLevel
    have hany : THINKING_DEEP_KEYWORDS.any
        (fun k => strContains (strToLower message) k) = true := by
      simp [THINKING_DEEP_KEYWORDS, h]
    simp [hany]
  · intro cfg active st0 message stream t ht
    refine ⟨?_, sendMessageStreaming_forceThinking cfg active st0 message stream⟩
    rw [sendMessageStreaming_thinkingTokens, prepareSend_thinkingTokens, ht]
  · intro cfg active st0 message stream ht
    rw [sendMessageStreaming_thinkingTokens, prepareSend_thinkingTokens, ht]

/-- Witness for C6 at concrete inputs. -/
theorem thinking_budget_resolution_witness :
    getThinkingLevel "please THINK Hard now" = 50000 ∧
    (sendMessageStreaming cfg0 0 { forceThinking := some 123 } "m"
        { events := [] }).thinkingTokens = 123 ∧
    (sendMessageStreaming cfg0 0 { forceThinking := some 123 } "m"
        { events := [] }).state.forceThinking = none :=
  ⟨thinking_budget_resolution.1 "please THINK Hard now" (by decide),
   (thinking_budget_resolution.2.1 cfg0 0 { forceThinking := some 123 } "m"
      { events := [] } 123 rfl).1,
   (thinking_budget_resolution.2.1 cfg0 0 { forceThinking := some 123 } "m"
      { events := [] } 123 rfl).2⟩

/-- C7: a stop requested during the processing phase makes the call fail with
"Query cancelled" before the provider is invoked and before the active-query
counter is touched, and the stop flag is cleared. -/
theorem cancelled_before_provider_start (cfg : BotConfig) (active : Nat)
    (st0 : SessionState) (message : String) (stream : StreamModel)
    (hstop : st0.stopRequested = true) :
    (sendMessageStreaming cfg active st0 message stream).outcome =
      .error "Query cancelled" ∧
    (sendMessageStreaming cfg active st0 message stream).providerInvoked = false ∧
    (sendMessageStreaming cfg active st0 message stream).active = active ∧
    (sendMessageStreaming cfg active st0 message stream).peakActive = active ∧
    (sendMessageStreaming cfg active st0 message stream).state.stopRequested =
      false := by
  have h1 : (prepareSend cfg st0 message).state.stopRequested = true := by
    rw [prepareSend_stopRequested, hstop]
  simp only [sendMessageStreaming]
  rw [if_pos h1]
  exact ⟨rfl, rfl, rfl, rfl, rfl⟩

/-- Witness for C7 at concrete inputs. -/
theorem cancelled_before_provider_start_witness :
    (sendMessageStreaming cfg0 0 { stopRequested := true } "m"
        { events := [] }).outcome = .error "Query cancelled" :=
  (cancelled_before_provider_start cfg0 0 { stopRequested := true } "m"
    { events := [] } rfl).1

/-- C3: the shared counter is returned to its pre-call value on every exit
path, never exceeds the configured maximum during the call, a call arriving
at the cap fails with the "Server busy" error without invoking the provider,
and a call below the cap (after a release) acquires the slot. -/
theorem concurrency_gate_invariant (cfg : BotConfig) (active : Nat)
    (st0 : SessionState) (message : String) (stream : StreamModel)
    (hle : active ≤ cfg.maxConcurrent) :
    (sendMessageStreaming cfg active st0 message stream).active = active ∧
    (sendMessageStreaming cfg active st0 message stream).peakActive ≤
      cfg.maxConcurrent ∧
    (st0.stopRequested = false → cfg.maxConcurrent ≤ active →
      (sendMessageStreaming cfg active st0 message stream).outcome =
        .error ("Server busy: " ++ toString active ++
          " queries running. Please wait.") ∧
      (sendMessageStreaming cfg active st0 message stream).providerInvoked =
        false) ∧
    (st0.stopRequested = false → active < cfg.maxConcurrent →
      (sendMessageStreaming cfg active st0 message stream).providerInvoked =
        true ∧
      (sendMessageStreaming cfg active st0 message stream).peakActive =
        active + 1) := by
  by_cases h1 : (prepareSend cfg st0 message).state.stopRequested
  · have hst0 : st0.stopRequested = true := by
      rw [← prepareSend_stopRequested cfg st0 message]
      exact h1
    simp only [sendMessageStreaming]
    rw [if_pos h1]
    refine ⟨rfl, by simpa using hle, ?_, ?_⟩
    · intro hs _
      simp [hst0] at hs
    · intro hs _
      simp [hst0] at hs
  · simp only [sendMessageStreaming]
    rw [if_neg h1]
    by_cases h2 : cfg.maxConcurrent ≤ active
    · rw [if_pos h2]
      refine ⟨rfl, by simpa using hle, fun _ _ => ⟨rfl, rfl⟩, ?_⟩
      intro _ hlt
      omega
    · rw [if_neg h2]
      refine ⟨?_, ?_, ?_, ?_⟩
      · rw [finishQuery_active, gateRelease_succ]
      · rw [finishQuery_peakActive]
        omega
      · intro _ hm
        exact absurd hm h2
      · intro _ _
        exact ⟨finishQuery_providerInvoked _ _ _ _ _,
          finishQuery_peakActive _ _ _ _ _⟩

/-- Witness for C3 at concrete inputs: a call at the cap of 2 is rejected. -/
theorem concurrency_gate_invariant_witness :
    (sendMessageStreaming cfg0 2 {} "m" { events := [] }).outcome =
      .error ("Server busy: " ++ toString 2 ++ " queries running. Please wait.") ∧
    (sendMessageStreaming cfg0 2 {} "m" { events := [] }).providerInvoked =
      false :=
  (concurrency_gate_invariant cfg0 2 {} "m" { events := [] }
    (by decide)).2.2.1 rfl (by decide)

/-- C8 counterexample: `kill` also clears `lastActivity`, so the claim that
every field other than the listed resets is left unchanged fails. -/
theorem kill_lastActivity_counterexample :
    ¬ ((kill { lastActivity := some 1 }).lastActivity =
        ({ lastActivity := some 1 } : SessionState).lastActivity) := by
  decide

/-- C8 (amended): `kill` resets the session id, lastActivity, the usage
totals, the mode flags, the query instance and the checkpoint stack, and
leaves every other field (currentModel, workingDir, diagnostics, ...)
unchanged. -/
theorem kill_resets (s : SessionState) :
    kill s = { s with
      sessionId := none
      lastActivity := none
      totalInputTokens := 0
      totalOutputTokens := 0
      totalCacheReadTokens := 0
      planMode := false
      forceThinking := none
      queryInstance := false
      userMessageUuids := [] } := rfl

end Bot

namespace Bot

/-- C4: with an attached query instance, a non-empty checkpoint stack and a
non-empty top id (checkpoint ids pushed by the event loop are always
non-empty), a failing `rewindFiles` leaves the stack exactly as before the
call and the failure is reported, while a successful rewind removes exactly
the top checkpoint. -/
theorem undo_retry_safe (s : SessionState) (rewind : String → Except String Unit)
    (hq : s.queryInstance = true) (hne : s.userMessageUuids ≠ [])
    (htop : s.userMessageUuids.getLast hne ≠ "") :
    (∀ e, rewind (s.userMessageUuids.getLast hne) = .error e →
      (undo rewind s).1.userMessageUuids = s.userMessageUuids ∧
      (undo rewind s).2.1 = false) ∧
    (rewind (s.userMessageUuids.getLast hne) = .ok () →
      (undo rewind s).1.userMessageUuids = s.userMessageUuids.dropLast ∧
      (undo rewind s).2.1 = true) := by
  have hq' : ¬ (s.queryInstance = false) := by simp [hq]
  have hemp : ¬ (s.userMessageUuids.isEmpty = true) := by
    cases h : s.userMessageUuids with
    | nil => exact absurd h hne
    | cons a l => simp [List.isEmpty]
  have hgl : s.userMessageUuids.getLast? = some (s.userMessageUuids.getLast hne) :=
    List.getLast?_eq_getLast _ hne
  unfold undo
  rw [if_neg hq', if_neg hemp, hgl]
  simp only [Option.getD_some]
  rw [if_neg htop]
  constructor
  · intro e herr
    rw [herr]
    exact ⟨List.dropLast_append_getLast hne, rfl⟩
  · intro hok
    rw [hok]
    exact ⟨rfl, rfl⟩

/-- Witness for C4 at concrete inputs. -/
theorem undo_retry_safe_witness :
    (undo (fun _ => .error "boom")
        { queryInstance := true, userMessageUuids := ["a", "b"] }).1.userMessageUuids =
      ["a", "b"] ∧
    (undo (fun _ => .ok ())
        { queryInstance := true, userMessageUuids := ["a", "b"] }).1.userMessageUuids =
      ["a"] := by
  constructor
  · exact ((undo_retry_safe
      { queryInstance := true, userMessageUuids := ["a", "b"] }
      (fun _ => .error "boom") rfl (by decide) (by decide)).1 "boom" rfl).1
  · have h := ((undo_retry_safe
      { queryInstance := true, userMessageUuids := ["a", "b"] }
      (fun _ => .ok ()) rfl (by decide) (by decide)).2 rfl).1
    simpa using h

/-- C5 counterexample: a snapshot whose `working_dir` is empty (hence differs
from the current directory "/w") passes validation and mutates the session,
because the directory check is skipped for a falsy `working_dir`. -/
theorem resumeLast_empty_dir_counterexample :
    (resumeLast 5 (some { session_id := "abc", version := some 1, working_dir := "" })
        { workingDir := "/w" }).2.1 = true ∧
    (resumeLast 5 (some { session_id := "abc", version := some 1, working_dir := "" })
        { workingDir := "/w" }).1.sessionId = some "abc" := by
  decide

/-- C5 (amended): a snapshot whose version differs from the expected tag, or
whose `working_dir` is non-empty and differs from the current directory, is
rejected with the session state unchanged; on success the version matched and
the directory either matched or was absent, and only then the persisted id is
adopted and the activity stamped. -/
theorem resumeLast_validation (now : Nat) (file : Option SessionData)
    (s : SessionState) :
    (∀ d, file = some d →
      (d.version ≠ some SESSION_VERSION ∨
        (d.working_dir ≠ "" ∧ d.working_dir ≠ s.workingDir)) →
      (resumeLast now file s).1 = s ∧ (resumeLast now file s).2.1 = false) ∧
    ((resumeLast now file s).2.1 = true →
      ∃ d, file = some d ∧ d.version = some SESSION_VERSION ∧
        (d.working_dir = "" ∨ d.working_dir = s.workingDir) ∧
        (resumeLast now file s).1.sessionId = some d.session_id ∧
        (resumeLast now file s).1.lastActivity = some now) := by
  cases file with
  | none =>
    constructor
    · intro d hd
      cases hd
    · intro h
      simp [resumeLast] at h
  | some d =>
    constructor
    · intro d' hd hbad
      injection hd with hd'
      subst hd'
      unfold resumeLast
      dsimp only
      split_ifs with ha hb hc
      · exact ⟨rfl, rfl⟩
      · exact ⟨rfl, rfl⟩
      · exact ⟨rfl, rfl⟩
      · rcases hbad with h | h
        · exact absurd h hb
        · exact absurd h hc
    · intro hsuc
      unfold resumeLast at hsuc ⊢
      dsimp only at hsuc ⊢
      split_ifs at hsuc ⊢ with ha hb hc
      refine ⟨d, rfl, not_not.mp hb, ?_, rfl, rfl⟩
      by_cases hde : d.working_dir = ""
      · exact Or.inl hde
      · push_neg at hc
        exact Or.inr (hc hde)

/-- Witness for C5 at concrete inputs: a version mismatch is rejected without
mutation. -/
theorem resumeLast_validation_witness :
    (resumeLast 3 (some { session_id := "x", version := none, working_dir := "" })
        {}).1 = ({} : SessionState) ∧
    (resumeLast 3 (some { session_id := "x", version := none, working_dir := "" })
        {}).2.1 = false :=
  (resumeLast_validation 3
    (some { session_id := "x", version := none, working_dir := "" }) {}).1
    _ rfl (Or.inl (by decide))

/-- C10: a snapshot that passes the session-id and version checks but whose
`working_dir` is absent/empty skips the directory validation entirely and the
persisted session id is adopted. -/
theorem resumeLast_skips_empty_working_dir (now : Nat) (d : SessionData)
    (s : SessionState) (hid : d.session_id ≠ "")
    (hv : d.version = some SESSION_VERSION) (hw : d.working_dir = "") :
    (resumeLast now (some d) s).2.1 = true ∧
    (resumeLast now (some d) s).1.sessionId = some d.session_id ∧
    (resumeLast now (some d) s).1.lastActivity = some now := by
  have h2 : ¬ (d.version ≠ some SESSION_VERSION) := by simp [hv]
  have h3 : ¬ (d.working_dir ≠ "" ∧ d.working_dir ≠ s.workingDir) := by simp [hw]
  unfold resumeLast
  dsimp only
  rw [if_neg hid, if_neg h2, if_neg h3]
  exact ⟨rfl, rfl, rfl⟩

/-- Witness for C10 at concrete inputs. -/
theorem resumeLast_skips_empty_working_dir_witness :
    (resumeLast 9 (some { session_id := "abcd", version := some 1, working_dir := "" })
        { workingDir := "/w" }).2.1 = true :=
  (resumeLast_skips_empty_working_dir 9
    { session_id := "abcd", version := some 1, working_dir := "" }
    { workingDir := "/w" } (by decide) rfl rfl).1

end Bot

namespace Codex

lemma isPrefixList_iff (p l : List Char) :
    Bot.isPrefixList p l = true ↔ ∃ t, p ++ t = l := by
  induction p generalizing l with
  | nil => simp [Bot.isPrefixList]
  | cons a ps ih =>
    cases l with
    | nil => simp [Bot.isPrefixList]
    | cons b ls =>
      simp only [Bot.isPrefixList, Bool.and_eq_true, beq_iff_eq, ih,
        List.cons_append, List.cons.injEq]
      constructor
      · rintro ⟨rfl, t, ht⟩
        exact ⟨t, rfl, ht⟩
      · rintro ⟨t, rfl, ht⟩
        exact ⟨rfl, t, ht⟩

lemma append_drop_of_isPrefixList {p l : List Char}
    (h : Bot.isPrefixList p l = true) : p ++ l.drop p.length = l := by
  obtain ⟨t, rfl⟩ := (isPrefixList_iff p l).mp h
  rw [List.drop_left]

lemma isPrefixList_self (p : List Char) : Bot.isPrefixList p p = true :=
  (isPrefixList_iff p p).mpr ⟨[], by simp⟩

lemma flushTextDelta_same_text (st : CodexState) (id : String) :
    flushTextDelta st id (st.textByItemId id) .text = (st, none) := by
  by_cases h : st.textByItemId id = []
  · simp [flushTextDelta, h]
  · simp [flushTextDelta, h, isPrefixList_self, List.drop_length]

lemma runFlush_chain (id : String) (ss : List JSStr) :
    ∀ st : CodexState, prefixChain (st.textByItemId id) ss = true →
      (runFlush st id .text ss).1.textByItemId id =
        ss.getLastD (st.textByItemId id) ∧
      st.textByItemId id ++ (runFlush st id .text ss).2.join =
        ss.getLastD (st.textByItemId id) := by
  induction ss with
  | nil =>
    intro st _
    exact ⟨rfl, by simp [runFlush]⟩
  | cons s rest ih =>
    intro st hchain
    simp only [prefixChain, Bool.and_eq_true] at hchain
    obtain ⟨hpre, hrest⟩ := hchain
    by_cases hsne : s = []
    · subst hsne
      have hprev : st.textByItemId id = [] := by
        obtain ⟨t, ht⟩ := (isPrefixList_iff _ _).mp hpre
        exact (List.append_eq_nil.mp ht).1
      have hflush : flushTextDelta st id [] .text = (st, none) := by
        simp [flushTextDelta]
      obtain ⟨ih1, ih2⟩ := ih st (by rw [hprev]; exact hrest)
      constructor
      · simp only [runFlush, hflush]
        rw [ih1, hprev, List.getLastD_cons]
      · simp only [runFlush, hflush]
        rw [hprev] at ih2 ⊢
        rw [List.getLastD_cons]
        simpa using ih2
    · have hdrop : st.textByItemId id ++ s.drop (st.textByItemId id).length = s :=
        append_drop_of_isPrefixList hpre
      by_cases hdel : s.drop (st.textByItemId id).length = []
      · have hs : st.textByItemId id = s := by
          rw [hdel] at hdrop
          simpa using hdrop
        have hflush : flushTextDelta st id s .text = (st, none) := by
          simp [flushTextDelta, hsne, hpre, hdel]
        obtain ⟨ih1, ih2⟩ := ih st (by rw [hs]; exact hrest)
        constructor
        · simp only [runFlush, hflush]
          rw [ih1, hs, List.getLastD_cons]
        · simp only [runFlush, hflush]
          rw [hs] at ih2 ⊢
          rw [List.getLastD_cons]
          simpa using ih2
      · have hflush : flushTextDelta st id s .text =
            ({ st with
                textByItemId := fun i => if i = id then s else st.textByItemId i
                finalResponse :=
                  st.finalResponse ++ s.drop (st.textByItemId id).length },
             some (s.drop (st.textByItemId id).length)) := by
          simp [flushTextDelta, hsne, hpre, hdel]
        have hst2 : ({ st with
            textByItemId := fun i => if i = id then s else st.textByItemId i
            finalResponse :=
              st.finalResponse ++ s.drop (st.textByItemId id).length } :
              CodexState).textByItemId id = s := by
          simp
        obtain ⟨ih1, ih2⟩ := ih _ (by rw [hst2]; exact hrest)
        constructor
        · have h1 := ih1
          rw [hst2] at h1
          simp only [runFlush, hflush]
          rw [List.getLastD_cons]
          exact h1
        · have h2 := ih2
          rw [hst2] at h2
          simp only [runFlush, hflush]
          rw [List.getLastD_cons, ← h2, ← hdrop]
          simp [List.append_assoc]

end Codex

namespace Codex

/-- C9: for a fresh item id and a sequence of cumulative snapshots each
extending the previous as a string prefix, the concatenation of the text
deltas emitted by flushTextDelta equals the final snapshot; and a snapshot
equal to the previously recorded text emits no event and leaves the state
untouched. -/
theorem flushTextDelta_concat (id : String) (st : CodexState) (ss : List JSStr)
    (hfresh : st.textByItemId id = [])
    (hchain : prefixChain [] ss = true)
    (hne : ss ≠ []) :
    (runFlush st id .text ss).2.join = ss.getLast hne ∧
    (∀ st2 : CodexState, flushTextDelta st2 id (st2.textByItemId id) .text =
      (st2, none)) := by
  constructor
  · have h := (runFlush_chain id ss st (by rw [hfresh]; exact hchain)).2
    rw [hfresh] at h
    simp only [List.nil_append] at h
    rw [h, List.getLastD_eq_getLast?, List.getLast?_eq_getLast ss hne]
    rfl
  · intro st2
    exact flushTextDelta_same_text st2 id

/-- Witness for C9 at concrete inputs: cumulative snapshots "He", "Hello"
emit deltas joining to "Hello". -/
theorem flushTextDelta_concat_witness :
    (runFlush codexSt0 "i" .text
      [['H', 'e'], ['H', 'e', 'l', 'l', 'o']]).2.join =
      ['H', 'e', 'l', 'l', 'o'] :=
  (flushTextDelta_concat "i" codexSt0 [['H', 'e'], ['H', 'e', 'l', 'l', 'o']]
    rfl (by decide) (by decide)).1

end Codex

namespace Bot

lemma queryBody_of_clean (cfg : BotConfig) (ls0 : LoopState)
    (stream : StreamModel)
    (hclean : streamClean cfg stream.events = true)
    (hterr : stream.terminalError = none)
    (hask : ls0.askUserTriggered = false)
    (hstop : ls0.session.stopRequested = false) :
    ∃ st', queryBody cfg ls0 stream = (st', .ok none) ∧
      st'.responseParts = ls0.responseParts ++ streamTextDeltas stream.events ∧
      st'.askUserTriggered = false := by
  obtain ⟨st', hrun, hparts, hask', hqc, hstopf⟩ :=
    runLoop_of_clean cfg stream.events ls0 hclean hask hstop
  exact ⟨st', by simp only [queryBody, hrun, hterr], hparts, hask'⟩

lemma queryBody_of_clean_terminal (cfg : BotConfig) (ls0 : LoopState)
    (stream : StreamModel) (stopE : Bool) (err : String)
    (hclean : streamClean cfg stream.events = true)
    (hterr : stream.terminalError = some (stopE, err))
    (hask : ls0.askUserTriggered = false)
    (hstop : ls0.session.stopRequested = false) :
    ∃ st' : LoopState, queryBody cfg ls0 stream =
        queryCatch cfg
          { st' with session := { st'.session with stopRequested := stopE } } err ∧
      st'.responseParts = ls0.responseParts ++ streamTextDeltas stream.events ∧
      st'.askUserTriggered = false ∧
      st'.queryCompleted = (ls0.queryCompleted || streamHasResult stream.events) := by
  obtain ⟨st', hrun, hparts, hask', hqc, hstopf⟩ :=
    runLoop_of_clean cfg stream.events ls0 hclean hask hstop
  exact ⟨st', by simp only [queryBody, hrun, hterr], hparts, hask', hqc⟩

/-- C1 counterexample: a stream carrying a `result` event but no
`AssistantText` deltas makes the call return the default placeholder, not the
(empty) concatenation of the observed deltas. -/
theorem empty_delta_concat_counterexample :
    (sendMessageStreaming cfg0 0 {} "m" streamResultOnly).outcome ≠
      .ok (String.join (streamTextDeltas streamResultOnly.events)) := by
  decide

/-- C1 (amended): for every stream of provider events in which a `result`
event appears and no error, cancellation or ask-user exit occurs, the
returned string equals the concatenation, in arrival order, of all
`AssistantText` deltas when that concatenation is non-empty; when no text
was observed the placeholder "No response from Claude." is returned instead. -/
theorem streaming_returns_delta_concat (cfg : BotConfig) (active : Nat)
    (st0 : SessionState) (message : String) (stream : StreamModel)
    (hclean : streamClean cfg stream.events = true)
    (hterr : stream.terminalError = none)
    (hres : streamHasResult stream.events = true)
    (hstop : st0.stopRequested = false)
    (hgate : active < cfg.maxConcurrent) :
    (String.join (streamTextDeltas stream.events) ≠ "" →
      (sendMessageStreaming cfg active st0 message stream).outcome =
        .ok (String.join (streamTextDeltas stream.events))) ∧
    (String.join (streamTextDeltas stream.events) = "" →
      (sendMessageStreaming cfg active st0 message stream).outcome =
        .ok "No response from Claude.") := by
  have h1 : ¬ ((prepareSend cfg st0 message).state.stopRequested = true) := by
    rw [prepareSend_stopRequested, hstop]
    simp
  have h2 : ¬ (cfg.maxConcurrent ≤ active) := by omega
  obtain ⟨st', hqb, hparts, haskf⟩ :=
    queryBody_of_clean cfg
      { session := startQuery cfg (prepareSend cfg st0 message).state }
      stream hclean hterr rfl rfl
  have hp : st'.responseParts = streamTextDeltas stream.events := by
    simpa using hparts
  have hcommon : (sendMessageStreaming cfg active st0 message stream).outcome =
      .ok (jsOr (String.join (streamTextDeltas stream.events))
        "No response from Claude.") := by
    simp only [sendMessageStreaming]
    rw [if_neg h1, if_neg h2, hqb]
    simp only [finishQuery]
    rw [if_neg (show ¬ (st'.askUserTriggered = true) by simp [haskf])]
    have hfinal : jsOr ((none : Option String).getD "")
        (jsOr (String.join st'.responseParts) "No response from Claude.") =
        jsOr (String.join (streamTextDeltas stream.events))
          "No response from Claude." := by
      rw [hp]
      show jsOr "" _ = _
      unfold jsOr
      rw [if_pos rfl]
    rw [hfinal]
  constructor
  · intro hne
    rw [hcommon]
    unfold jsOr
    rw [if_neg hne]
  · intro hempty
    rw [hcommon]
    unfold jsOr
    rw [if_pos hempty]

end Bot

namespace Bot

/-- C2 counterexample: a non-exit error whose message contains "abort",
thrown after a partial response exists, is suppressed: the call resolves and
no error is recorded, contradicting the claim that any non-exit error is
recorded on the session and rethrown. -/
theorem nonexit_abort_suppressed_counterexample :
    isExitErrorStr "The operation was aborted" = false ∧
    (sendMessageStreaming cfg0 0 {} "m" streamAbortErr).outcome = .ok "Hi" ∧
    (sendMessageStreaming cfg0 0 {} "m" streamAbortErr).state.lastError = none := by
  decide

/-- C2 (amended): an exit-type error is suppressed iff a `result` event was
seen, the ask-user tool was triggered, cancellation was requested, or partial
text exists; when suppressed with partial text and no `result` event the
partial text is the forced result, and a call whose provider dies with an
exit-type error after yielding text resolves with that text; an error whose
message contains "cancel" or "abort" is suppressed under the same condition;
any other error is recorded on the session with a timestamp and rethrown. -/
theorem exit_error_suppression (cfg : BotConfig) (ls : LoopState) (err : String) :
    (isExitErrorStr err = true →
      ((∃ f, (queryCatch cfg ls err).2 = .ok f) ↔
        (ls.queryCompleted || ls.askUserTriggered || ls.session.stopRequested ||
          decide (0 < ls.responseParts.length)) = true)) ∧
    (isExitErrorStr err = true → ls.queryCompleted = false →
      ls.responseParts ≠ [] →
      (queryCatch cfg ls err).2 = .ok (some (String.join ls.responseParts))) ∧
    (isExitErrorStr err = false → isCleanupErrorStr err = true →
      ((∃ f, (queryCatch cfg ls err).2 = .ok f) ↔
        (ls.queryCompleted || ls.askUserTriggered || ls.session.stopRequested ||
          decide (0 < ls.responseParts.length)) = true)) ∧
    (isExitErrorStr err = false → isCleanupErrorStr err = false →
      (queryCatch cfg ls err).2 = .error err ∧
      (queryCatch cfg ls err).1.session.lastError = some (err.take 100) ∧
      (queryCatch cfg ls err).1.session.lastErrorTime = some cfg.nowT) ∧
    (∀ (active : Nat) (st0 : SessionState) (message : String)
        (stream : StreamModel) (stopE : Bool),
      streamClean cfg stream.events = true →
      stream.terminalError = some (stopE, err) →
      isExitErrorStr err = true →
      streamHasResult stream.events = false →
      st0.stopRequested = false →
      active < cfg.maxConcurrent →
      String.join (streamTextDeltas stream.events) ≠ "" →
      (sendMessageStreaming cfg active st0 message stream).outcome =
        .ok (String.join (streamTextDeltas stream.events))) := by
  refine ⟨?_, ?_, ?_, ?_, ?_⟩
  · intro hE
    constructor
    · rintro ⟨f, hf⟩
      cases hb : (ls.queryCompleted || ls.askUserTriggered ||
          ls.session.stopRequested || decide (0 < ls.responseParts.length)) with
      | true => rfl
      | false => simp [queryCatch, handleQueryError, hb] at hf
    · intro hcond
      refine ⟨if 0 < ls.responseParts.length ∧ ls.queryCompleted = false then
          some (String.join ls.responseParts) else none, ?_⟩
      simp [queryCatch, handleQueryError, hE, hcond]
  · intro hE hq hparts
    have hlen : decide (0 < ls.responseParts.length) = true := by
      simp [List.length_pos, hparts]
    simp [queryCatch, handleQueryError, hE, hq, hlen]
  · intro hE hC
    constructor
    · rintro ⟨f, hf⟩
      cases hb : (ls.queryCompleted || ls.askUserTriggered ||
          ls.session.stopRequested || decide (0 < ls.responseParts.length)) with
      | true => rfl
      | false => simp [queryCatch, handleQueryError, hb] at hf
    · intro hcond
      refine ⟨if (isExitErrorStr err = true ∧ 0 < ls.responseParts.length) ∧
          ls.queryCompleted = false then
          some (String.join ls.responseParts) else none, ?_⟩
      simp [queryCatch, handleQueryError, hC, hcond]
  · intro hE hC
    refine ⟨?_, ?_, ?_⟩ <;> simp [queryCatch, handleQueryError, hE, hC]
  · intro active st0 message stream stopE hclean hterm hE hres hstop hgate hne
    have h1 : ¬ ((prepareSend cfg st0 message).state.stopRequested = true) := by
      rw [prepareSend_stopRequested, hstop]
      simp
    have h2 : ¬ (cfg.maxConcurrent ≤ active) := by omega
    obtain ⟨st', hqb, hparts, haskf, hqcf⟩ :=
      queryBody_of_clean_terminal cfg
        { session := startQuery cfg (prepareSend cfg st0 message).state }
        stream stopE err hclean hterm rfl rfl
    have hp : st'.responseParts = streamTextDeltas stream.events := by
      simpa using hparts
    have hq : st'.queryCompleted = false := by
      rw [hqcf, hres]
      simp
    have hdne : streamTextDeltas stream.events ≠ [] := by
      intro h0
      apply hne
      rw [h0]
      rfl
    have hlen : decide (0 < st'.responseParts.length) = true := by
      rw [hp]
      simp only [decide_eq_true_eq, List.length_pos]
      exact hdne
    have hcatch : queryCatch cfg
        { st' with session := { st'.session with stopRequested := stopE } } err =
        ({ st' with session := { st'.session with stopRequested := stopE } },
          .ok (some (String.join st'.responseParts))) := by
      simp [queryCatch, handleQueryError, hE, hq, haskf, hlen]
    simp only [sendMessageStreaming]
    rw [if_neg h1, if_neg h2, hqb, hcatch]
    simp only [finishQuery]
    rw [if_neg (show ¬ (({ st' with session :=
        { st'.session with stopRequested := stopE } } : LoopState).askUserTriggered =
        true) by simp [haskf])]
    have hjne : String.join st'.responseParts ≠ "" := by
      rw [hp]
      exact hne
    have hfinal : jsOr ((some (String.join st'.responseParts)).getD "")
        (jsOr (String.join st'.responseParts) "No response from Claude.") =
        String.join (streamTextDeltas stream.events) := by
      show jsOr (String.join st'.responseParts) _ = _
      unfold jsOr
      rw [if_neg hjne, hp]
    rw [hfinal]

/-- Witness for C2 at concrete inputs: a provider dying with an exit-type
error after yielding "Hi" resolves with "Hi". -/
theorem exit_error_suppression_witness :
    (sendMessageStreaming cfg0 0 {} "m" streamExitErr).outcome = .ok "Hi" := by
  have h := (exit_error_suppression cfg0 { session := {} }
      "process exited with code 1").2.2.2.2
    0 {} "m" streamExitErr false (by decide) rfl (by decide) (by decide) rfl
    (by decide) (by decide)
  exact h.trans (by decide)

end Bot

namespace Bot

/-- Witness for C1 at concrete inputs: a clean stream yielding "Hi" and a
`result` event returns "Hi", and a clean stream with a `result` event but no
text returns the placeholder. -/
theorem streaming_returns_delta_concat_witness :
    (sendMessageStreaming cfg0 0 {} "m"
        { events := [({}, { body := .assistant [.text "Hi"] }),
                     ({}, { body := .result none })] }).outcome = .ok "Hi" ∧
    (sendMessageStreaming cfg0 0 {} "m" streamResultOnly).outcome =
      .ok "No response from Claude." := by
  constructor
  · have h := (streaming_returns_delta_concat cfg0 0 {} "m"
      { events := [({}, { body := .assistant [.text "Hi"] }),
                   ({}, { body := .result none })] }
      (by decide) rfl (by decide) rfl (by decide)).1 (by decide)
    exact h.trans (by decide)
  · exact (streaming_returns_delta_concat cfg0 0 {} "m" streamResultOnly
      (by decide) rfl (by decide) rfl (by decide)).2 (by decide)

end Bot
